import Mathlib

/-!
Shallow embedding of the ZipRecruiter scraper (src/main.py) and proofs about
its specified behaviors: the multi-strategy fetch fallback of HTTPClient, the
CSV sink of CSVWriter, the recursive pagination crawl of
ZipRecruiterScraper.load_links, and the per-link detail pipeline of
ZipRecruiterScraper.get_details / process_link / run.

Modelling conventions:
* network and page contents are environments (functions) supplied to each
  operation, capturing what the site returns;
* an uncaught Python exception is an Except.error value; a caught exception
  follows the handler's code path;
* a Python local variable that may be unbound at a use site is modelled
  explicitly: reading it while unbound raises a NameError-like failure;
* the recursive pagination walk takes a fuel parameter; running out of fuel
  is reported by a distinguished CrawlResult.fuelOut value (a model artifact
  for walks that do not finish, such as a cycling next-page token).
-/

set_option autoImplicit false

/-! ### Fetcher (HTTPClient, main.py lines 36 to 84) -/

/-- Outcome of one fetch strategy helper (fetch_tls / fetch_aiohttp /
fetch_httpx, main.py lines 44 to 68).  Each helper catches its own
exceptions: it returns the response text on success and None after logging a
failure.  `body` carries the text returned (possibly empty), `failure`
carries the logged error message of a caught exception. -/
inductive StratOutcome
  | body (s : String)
  | failure (msg : String)
  deriving DecidableEq

/-- The value a strategy helper hands back to HTTPClient.fetch: the response
text, or none when the helper caught an exception (main.py lines 48 to 50,
57 to 59, 66 to 68). -/
def helperValue : StratOutcome → Option String
  | StratOutcome.body s => some s
  | StratOutcome.failure _ => none

/-- Python truthiness of the fetched content at `if content:` (main.py line
77): None and the empty string are falsy. -/
def truthy : Option String → Bool
  | none => false
  | some s => !(s == "")

/-- The loop of HTTPClient.fetch (main.py lines 74 to 84) over the ordered
strategy list [fetch_tls, fetch_aiohttp, fetch_httpx]: invoke each strategy
in declared order; return the first truthy content; after the list is
exhausted raise Exception with the fixed message.  The first component
counts how many strategies were invoked, the second is the returned body or
the raised exception. -/
def tryFetchMethods : List StratOutcome → Nat × Except String String
  | [] => (0, Except.error "All fetch methods failed")
  | o :: rest =>
      match helperValue o with
      | some s =>
          if s = "" then
            let p := tryFetchMethods rest
            (p.1 + 1, p.2)
          else (1, Except.ok s)
      | none =>
          let p := tryFetchMethods rest
          (p.1 + 1, p.2)

/-- HTTPClient.fetch (main.py lines 70 to 84): the body returned, or the
exception raised when every strategy failed or returned an empty body. -/
def HTTPClient.fetch (outcomes : List StratOutcome) : Except String String :=
  (tryFetchMethods outcomes).2

/-- Number of strategies HTTPClient.fetch invokes on a request. -/
def HTTPClient.fetchAttempts (outcomes : List StratOutcome) : Nat :=
  (tryFetchMethods outcomes).1

/-! ### Sink (CSVWriter, main.py lines 86 to 104) -/

/-- A row of the CSV backing store, tagged by how it was written: by
writer.writeheader or by writer.writerow. -/
inductive CsvRow
  | header (fields : List String)
  | data (fields : List String)
  deriving DecidableEq

/-- The backing store: none models an absent file, some rows the file's
contents.  CSVWriter's file-creation step (main.py lines 93 to 98) writes
the header row only when the file does not exist; over an existing file it
does nothing. -/
def CSVWriter.init_file (fieldnames : List String) :
    Option (List CsvRow) → Option (List CsvRow)
  | none => some [CsvRow.header fieldnames]
  | some rows => some rows

/-- CSVWriter.save_row (main.py lines 100 to 104): open in append mode
(creating the file when absent) and write one data row. -/
def CSVWriter.save_row (row : List String) :
    Option (List CsvRow) → Option (List CsvRow)
  | none => some [CsvRow.data row]
  | some rows => some (rows ++ [CsvRow.data row])

/-- Whether a stored row is a header row. -/
def isHeader : CsvRow → Bool
  | CsvRow.header _ => true
  | CsvRow.data _ => false

/-- Number of header rows in the backing store. -/
def headerCount : Option (List CsvRow) → Nat
  | none => 0
  | some rows => (rows.filter isHeader).length

/-- An operation on the sink: constructing a CSVWriter (whose constructor
runs the file-creation step, main.py line 91) or appending one row. -/
inductive SinkOp
  | construct
  | append (row : List String)
  deriving DecidableEq

/-- Apply one sink operation to the backing store. -/
def applySinkOp (fieldnames : List String) (store : Option (List CsvRow)) :
    SinkOp → Option (List CsvRow)
  | SinkOp.construct => CSVWriter.init_file fieldnames store
  | SinkOp.append row => CSVWriter.save_row row store

/-- Apply a sequence of sink operations in order. -/
def applySinkOps (fieldnames : List String) (store : Option (List CsvRow))
    (ops : List SinkOp) : Option (List CsvRow) :=
  ops.foldl (applySinkOp fieldnames) store

/-! ### Job records (ZipRecruiterScraper.get_details, main.py 133 to 172) -/

/-- The record shape built at main.py lines 151 to 169, one field per CSV
column (main.py lines 114 to 119). -/
structure JobRecord where
  Domain : String
  PostUrl : String
  JobID : String
  Title : String
  City : String
  State : String
  Speciality : String
  JobType : String
  JobDetails : String
  Industry : String
  Company : String
  PostedOn : String
  SalaryFrom : String
  SalaryUpto : String
  PayoutTerm : String
  IsEstimatedSalary : Bool
  ScrapedOn : String
  deriving DecidableEq

/-- The fields read from a detail page's application/ld+json block when the
block parses and every accessed key is present (main.py lines 148 to 163).
descriptionText is the text of the description after the nested soup and
strip at line 149. -/
structure JobData where
  title : String
  addressLocality : String
  addressRegion : String
  employmentType : String
  descriptionText : String
  hiringOrganizationName : String
  datePosted : String
  deriving DecidableEq

/-- The dictionary literal of main.py lines 151 to 169, with `now` the
formatted datetime.now() of line 168.  JobID, Speciality, Industry,
SalaryFrom, SalaryUpto and PayoutTerm are hard-coded empty strings and
IsEstimatedSalary is hard-coded False in the source. -/
def mkJobRecord (url : String) (d : JobData) (now : String) : JobRecord :=
  ⟨"ZipRecruiter", url, "", d.title, d.addressLocality, d.addressRegion, "",
    d.employmentType, d.descriptionText, "", d.hiringOrganizationName,
    d.datePosted, "", "", "", false, now⟩

/-- What the network and the page yield for one detail-page URL:
`fetchFail` when HTTPClient.fetch raised (all strategies failed), `fetched
none` when a body arrived but the structured-data block is absent or its
parsing raised, `fetched (some d)` when the block parsed cleanly. -/
inductive DetailFetch
  | fetchFail
  | fetched (parsed : Option JobData)
  deriving DecidableEq

/-- ZipRecruiterScraper.get_details (main.py lines 133 to 172).  The fetch
at line 136 sits outside the try block that starts at line 138, so a fetch
exception propagates out of get_details; parsing failures inside the try
are caught and yield None, as does an absent ld+json block (the `if
json_data:` with no else falls through to an implicit None). -/
def ZipRecruiterScraper.get_details (r : DetailFetch) (url now : String) :
    Except String (Option JobRecord) :=
  match r with
  | DetailFetch.fetchFail => Except.error "All fetch methods failed"
  | DetailFetch.fetched none => Except.ok none
  | DetailFetch.fetched (some d) => Except.ok (some (mkJobRecord url d now))

/-- ZipRecruiterScraper.process_link (main.py lines 210 to 217).  `sink`
models csv_writer.save_row at line 215: none means the write succeeded,
some e means it raised e.  process_link has no handler of its own, so both
a get_details exception and a save_row exception propagate; Except.ok
(some record) means the record was appended, Except.ok none means the
omission was logged at line 217. -/
def ZipRecruiterScraper.process_link (r : DetailFetch)
    (sink : JobRecord → Option String) (url now : String) :
    Except String (Option JobRecord) :=
  match ZipRecruiterScraper.get_details r url now with
  | Except.error e => Except.error e
  | Except.ok none => Except.ok none
  | Except.ok (some record) =>
      match sink record with
      | none => Except.ok (some record)
      | some e => Except.error e

/-- The await of asyncio.gather over the process_link tasks (main.py lines
231 to 232), modelled with the awaited results in link order: the records
appended before the first propagated exception, and that exception when one
occurred (gather re-raises the first failing task's exception to run). -/
def ZipRecruiterScraper.gather (detail : String → DetailFetch)
    (sink : JobRecord → Option String) (now : String) :
    List String → List JobRecord × Option String
  | [] => ([], none)
  | link :: rest =>
      match ZipRecruiterScraper.process_link (detail link) sink link now with
      | Except.error e => ([], some e)
      | Except.ok none => ZipRecruiterScraper.gather detail sink now rest
      | Except.ok (some record) =>
          let t := ZipRecruiterScraper.gather detail sink now rest
          (record :: t.1, t.2)

/-! ### Link crawler (ZipRecruiterScraper.load_links, main.py 174 to 208) -/

/-- What one listing page yields to get_links (main.py lines 180 to 196):
`fetchFail` when the fetch at line 180 raised (so the local `response` is
never bound); `parseFail` when a later step raised before the links were
appended; `badNext links` when the links were appended but int() on the
next-page text raised; `parsed links next` when the page parsed, with the
extracted links and the optional next-page number. -/
inductive PageOutcome
  | fetchFail
  | parseFail
  | badNext (links : List String)
  | parsed (links : List String) (next : Option Nat)
  deriving DecidableEq

/-- How one walk of get_links ended: `done` for a normal return (including
an exception caught and logged by the handler at lines 201 to 204),
`raisedNameError` when the handler itself raised by evaluating the unbound
local `response` at line 203, `fuelOut` when the walk did not finish within
the model's fuel. -/
inductive CrawlResult
  | done
  | raisedNameError
  | fuelOut
  deriving DecidableEq

/-- Result of a get_links walk: the page numbers visited in order, the
contents of self.job_links afterwards, and how the walk ended. -/
structure CrawlOut where
  visited : List Nat
  links : List String
  result : CrawlResult
  deriving DecidableEq

/-- The recursive inner function get_links of load_links (main.py lines 178
to 204).  `acc` is self.job_links.  On a page that parses, the page's links
are appended first (line 190) and the walk then follows the next-page
number when one is present (lines 195 to 197).  When the fetch itself
raises, `response` was never bound, so the handler's `if response:` at line
203 raises an unbound-local NameError out of get_links.  When a later step
raises, `response` is bound and the handler logs and returns normally. -/
def ZipRecruiterScraper.get_links (env : Nat → PageOutcome) :
    Nat → Nat → List String → CrawlOut
  | 0, _, acc => ⟨[], acc, CrawlResult.fuelOut⟩
  | fuel + 1, page, acc =>
      match env page with
      | PageOutcome.fetchFail => ⟨[page], acc, CrawlResult.raisedNameError⟩
      | PageOutcome.parseFail => ⟨[page], acc, CrawlResult.done⟩
      | PageOutcome.badNext links => ⟨[page], acc ++ links, CrawlResult.done⟩
      | PageOutcome.parsed links none =>
          ⟨[page], acc ++ links, CrawlResult.done⟩
      | PageOutcome.parsed links (some next) =>
          let r := ZipRecruiterScraper.get_links env fuel next (acc ++ links)
          ⟨page :: r.visited, r.links, r.result⟩

/-- An exception escaping load_links in the model: the NameError raised by
the crawl's own handler, or the fuel artifact for a walk that never ends. -/
inductive CrawlErr
  | nameError
  | fuelOut
  deriving DecidableEq

/-- ZipRecruiterScraper.load_links (main.py lines 174 to 208): run
get_links from page 1 over the current self.job_links, then return
self.job_links.  The pair is (what load_links returns or raises, the state
of self.job_links afterwards). -/
def ZipRecruiterScraper.load_links (env : Nat → PageOutcome) (fuel : Nat)
    (job_links : List String) :
    Except CrawlErr (List String) × List String :=
  let r := ZipRecruiterScraper.get_links env fuel 1 job_links
  match r.result with
  | CrawlResult.done => (Except.ok r.links, r.links)
  | CrawlResult.raisedNameError => (Except.error CrawlErr.nameError, r.links)
  | CrawlResult.fuelOut => (Except.error CrawlErr.fuelOut, r.links)

/-- A listing environment is progressive when every next-page number it
emits is greater than the page it appears on (a well-formed pagination
chain).  The source never checks this; it follows whatever number the page
text carries. -/
def Progressive (env : Nat → PageOutcome) : Prop :=
  ∀ p links q, env p = PageOutcome.parsed links (some q) → p < q

/-- The links a page outcome contributes to self.job_links: the extracted
links when the extend at main.py line 190 ran, nothing otherwise. -/
def pageLinks : PageOutcome → List String
  | PageOutcome.fetchFail => []
  | PageOutcome.parseFail => []
  | PageOutcome.badNext links => links
  | PageOutcome.parsed links _ => links

/-! ### Run loop (ZipRecruiterScraper.run, main.py 219 to 234) -/

/-- How one query's iteration of the run loop ended: the crawl raised into
the per-query handler, no links were found (the `if not links: continue` at
lines 226 to 228), the batch await raised into the per-query handler, or
the batch completed. -/
inductive QueryOutcome
  | crawlError
  | noLinks
  | batchError (msg : String)
  | completed
  deriving DecidableEq

/-- Outcome of the try block of one query iteration (main.py lines 224 to
232): the logged outcome, the (query, links) pair handed to gather when one
was, the records appended, and self.job_links afterwards. -/
structure StepOut where
  outcome : QueryOutcome
  processed : List (String × List String)
  appended : List JobRecord
  job_links : List String
  deriving DecidableEq

/-- One iteration of the run loop for query q: load the links, skip when
the returned list is empty, otherwise gather the per-link tasks; any
exception becomes a crawlError or batchError outcome, matching the
catch-and-log at main.py lines 233 to 234. -/
def ZipRecruiterScraper.run_query (pagesOf : String → Nat → PageOutcome)
    (detail : String → DetailFetch) (sink : JobRecord → Option String)
    (fuel : Nat) (now : String) (q : String) (jl : List String) : StepOut :=
  match ZipRecruiterScraper.load_links (pagesOf q) fuel jl with
  | (Except.error _, jl2) => ⟨QueryOutcome.crawlError, [], [], jl2⟩
  | (Except.ok links, jl2) =>
      if links.isEmpty then ⟨QueryOutcome.noLinks, [], [], jl2⟩
      else
        match ZipRecruiterScraper.gather detail sink now links with
        | (rows, some e) =>
            ⟨QueryOutcome.batchError e, [(q, links)], rows, jl2⟩
        | (rows, none) =>
            ⟨QueryOutcome.completed, [(q, links)], rows, jl2⟩

/-- Accumulated outcome of ZipRecruiterScraper.run: one outcome per query,
the (query, links) batches handed to gather, all appended records, and the
final self.job_links. -/
structure RunSummary where
  outcomes : List QueryOutcome
  processed : List (String × List String)
  appended : List JobRecord
  job_links : List String
  deriving DecidableEq

/-- ZipRecruiterScraper.run (main.py lines 219 to 234): iterate the
configured queries over the single scraper instance, threading
self.job_links (which __init__ creates once at line 111 and nothing ever
clears), catching every per-query exception and continuing. -/
def ZipRecruiterScraper.run (pagesOf : String → Nat → PageOutcome)
    (detail : String → DetailFetch) (sink : JobRecord → Option String)
    (fuel : Nat) (now : String) :
    List String → List String → RunSummary
  | [], jl => ⟨[], [], [], jl⟩
  | q :: qs, jl =>
      let st := ZipRecruiterScraper.run_query pagesOf detail sink fuel now q jl
      let s :=
        ZipRecruiterScraper.run pagesOf detail sink fuel now qs st.job_links
      ⟨st.outcome :: s.outcomes, st.processed ++ s.processed,
        st.appended ++ s.appended, s.job_links⟩

/-! ### Concrete environments used in closed statements -/

/-- A pagination chain 1, 2, 3, then a final page with no next number. -/
def env3w : Nat → PageOutcome := fun p =>
  if p < 3 then PageOutcome.parsed ["L"] (some (p + 1))
  else PageOutcome.parsed [] none

/-- A listing whose every page names page 1 as the next page: the next-page
number never increases. -/
def env3c : Nat → PageOutcome := fun _ => PageOutcome.parsed [] (some 1)

/-- A listing of two pages that both carry the same link A. -/
def env6 : Nat → PageOutcome := fun p =>
  if p = 1 then PageOutcome.parsed ["A"] (some 2)
  else PageOutcome.parsed ["A"] none

/-- A listing whose page 1 fetch fails all strategies. -/
def env10 : Nat → PageOutcome := fun _ => PageOutcome.fetchFail

/-- A sample parsed structured-data block. -/
def jdSample : JobData :=
  ⟨"Engineer", "Pune", "MH", "FULL_TIME", "Build things.", "Acme",
    "2025-01-01"⟩

/-- Detail environment where link L1 fails all fetch strategies and every
other link fetches and parses cleanly. -/
def detailC2 : String → DetailFetch := fun u =>
  if u = "L1" then DetailFetch.fetchFail
  else DetailFetch.fetched (some jdSample)

/-- Listing environment for a two-query run: every page of query aws
carries link A and no next page; every page of any other query carries link
B and no next page. -/
def pagesC5 : String → Nat → PageOutcome := fun q _ =>
  if q = "aws" then PageOutcome.parsed ["A"] none
  else PageOutcome.parsed ["B"] none

/-- Detail environment where every detail page lacks a structured-data
block. -/
def detailC5 : String → DetailFetch := fun _ => DetailFetch.fetched none

/-- A sink whose writes always succeed. -/
def sinkC5 : JobRecord → Option String := fun _ => none

/-! ### Fetcher lemmas -/

/-- A strategy whose content is falsy is skipped: the loop moves on and the
attempt is counted. -/
theorem tryFetch_skip (o : StratOutcome) (rest : List StratOutcome)
    (h : truthy (helperValue o) = false) :
    tryFetchMethods (o :: rest)
      = ((tryFetchMethods rest).1 + 1, (tryFetchMethods rest).2) := by
  cases ho : helperValue o with
  | none => simp [tryFetchMethods, ho]
  | some s =>
      have hs : s = "" := by
        rw [ho] at h
        simpa [truthy] using h
      simp [tryFetchMethods, ho, hs]

/-- A strategy whose content is truthy ends the loop at once with that
body. -/
theorem tryFetch_hit (o : StratOutcome) (rest : List StratOutcome)
    (h : truthy (helperValue o) = true) :
    tryFetchMethods (o :: rest) = (1, Except.ok ((helperValue o).getD "")) := by
  cases ho : helperValue o with
  | none => rw [ho] at h; simp [truthy] at h
  | some s =>
      have hs : ¬ s = "" := by
        rw [ho] at h
        simpa [truthy] using h
      simp [tryFetchMethods, ho, hs]

/-- The loop stops at the first truthy strategy: everything before it is
skipped, it is the (pre.length + 1)-th invocation, and the strategies after
it play no part. -/
theorem tryFetch_first (pre post : List StratOutcome) (o : StratOutcome)
    (hpre : ∀ p ∈ pre, truthy (helperValue p) = false)
    (ho : truthy (helperValue o) = true) :
    tryFetchMethods (pre ++ o :: post)
      = (pre.length + 1, Except.ok ((helperValue o).getD "")) := by
  induction pre with
  | nil => simpa using tryFetch_hit o post ho
  | cons p pre ih =>
      have hp := hpre p (List.mem_cons_self p pre)
      have ih2 := ih (fun x hx => hpre x (List.mem_cons_of_mem p hx))
      rw [List.cons_append, tryFetch_skip p (pre ++ o :: post) hp, ih2]
      simp [Nat.add_comm]

/-- C1: for every request and every ordered strategy list, HTTPClient.fetch
returns the body of the first strategy in declared order whose content is
non-empty, invokes exactly the strategies up to and including that one, and
the strategies after the first successful one are never invoked (the result
and the attempt count are unchanged when they are removed). -/
theorem C1_theorem (pre post : List StratOutcome) (o : StratOutcome)
    (hpre : ∀ p ∈ pre, truthy (helperValue p) = false)
    (ho : truthy (helperValue o) = true) :
    HTTPClient.fetch (pre ++ o :: post) = Except.ok ((helperValue o).getD "")
    ∧ HTTPClient.fetchAttempts (pre ++ o :: post) = pre.length + 1
    ∧ HTTPClient.fetch (pre ++ o :: post) = HTTPClient.fetch (pre ++ [o])
    ∧ HTTPClient.fetchAttempts (pre ++ o :: post)
        = HTTPClient.fetchAttempts (pre ++ [o]) := by
  have h1 := tryFetch_first pre post o hpre ho
  have h2 := tryFetch_first pre [] o hpre ho
  unfold HTTPClient.fetch HTTPClient.fetchAttempts
  rw [h1, h2]
  exact ⟨rfl, rfl, rfl, rfl⟩

/-- Witness for C1: with the TLS strategy failing, the aiohttp strategy
returning a body, and the httpx strategy also able to return one, fetch
returns the aiohttp body after exactly two invocations. -/
theorem C1_witness :
    HTTPClient.fetch [StratOutcome.failure "tls down",
        StratOutcome.body "hello", StratOutcome.body "later"]
      = Except.ok "hello"
    ∧ HTTPClient.fetchAttempts [StratOutcome.failure "tls down",
        StratOutcome.body "hello", StratOutcome.body "later"] = 2 := by
  have h := C1_theorem [StratOutcome.failure "tls down"]
    [StratOutcome.body "later"] (StratOutcome.body "hello")
    (by decide) (by decide)
  exact ⟨h.1, h.2.1⟩

/-- C4 (amended): when every strategy fails or returns an empty body, fetch
raises a plain exception with the fixed message "All fetch methods failed"
and the request produces no body; the individual strategy failures are only
logged, not attached to the raised error. -/
theorem C4_theorem (outcomes : List StratOutcome)
    (h : ∀ o ∈ outcomes, truthy (helperValue o) = false) :
    HTTPClient.fetch outcomes = Except.error "All fetch methods failed" := by
  induction outcomes with
  | nil => rfl
  | cons o rest ih =>
      have ho := h o (List.mem_cons_self o rest)
      have ih2 := ih (fun x hx => h x (List.mem_cons_of_mem o hx))
      unfold HTTPClient.fetch at ih2 ⊢
      rw [tryFetch_skip o rest ho]
      exact ih2

/-- Witness for C4: a request on which the first and third strategies raise
and the second returns an empty body fails with the fixed message. -/
theorem C4_witness :
    HTTPClient.fetch [StratOutcome.failure "connection reset",
        StratOutcome.body "", StratOutcome.failure "timeout"]
      = Except.error "All fetch methods failed" :=
  C4_theorem _ (by decide)

/-- Counterexample for C4: two requests whose strategies fail with entirely
different errors produce the identical raised value, so the error carries
no per-strategy failure information at all; there is also no
AllStrategiesExhausted type, only a plain exception with a fixed message. -/
theorem C4_counterexample :
    HTTPClient.fetch [StratOutcome.failure "connection reset",
        StratOutcome.failure "name resolution error",
        StratOutcome.failure "certificate rejected"]
      = Except.error "All fetch methods failed"
    ∧ HTTPClient.fetch [StratOutcome.failure "proxy refused",
        StratOutcome.failure "http 403",
        StratOutcome.failure "socket closed"]
      = Except.error "All fetch methods failed" :=
  ⟨rfl, rfl⟩

/-! ### Sink theorems -/

/-- Appending rows and re-running the file-creation step never changes the
number of header rows of an existing store. -/
theorem applySinkOps_headerCount (fieldnames : List String)
    (ops : List SinkOp) :
    ∀ rows, headerCount (applySinkOps fieldnames (some rows) ops)
      = headerCount (some rows) := by
  induction ops with
  | nil => intro rows; rfl
  | cons op ops ih =>
      intro rows
      cases op with
      | construct =>
          have hstep : applySinkOps fieldnames (some rows)
              (SinkOp.construct :: ops)
            = applySinkOps fieldnames (some rows) ops := rfl
          rw [hstep]
          exact ih rows
      | append row =>
          have hstep : applySinkOps fieldnames (some rows)
              (SinkOp.append row :: ops)
            = applySinkOps fieldnames (some (rows ++ [CsvRow.data row])) ops :=
            rfl
          rw [hstep, ih (rows ++ [CsvRow.data row])]
          simp [headerCount, List.filter_append, isHeader]

/-- C9: the sink's backing store is created with its header exactly once,
idempotently, before the first append: running the file-creation step a
second time over an existing store leaves the store unchanged, a fresh
store receives exactly one header, and no later sequence of constructions
and appends ever changes that header count. -/
theorem C9_theorem (fieldnames : List String) :
    (∀ store, CSVWriter.init_file fieldnames
        (CSVWriter.init_file fieldnames store)
      = CSVWriter.init_file fieldnames store)
    ∧ (∀ rows, CSVWriter.init_file fieldnames (some rows) = some rows)
    ∧ headerCount (CSVWriter.init_file fieldnames none) = 1
    ∧ (∀ ops, headerCount
        (applySinkOps fieldnames (CSVWriter.init_file fieldnames none) ops)
      = 1) := by
  refine ⟨?_, fun rows => rfl, rfl, ?_⟩
  · intro store
    cases store <;> rfl
  · intro ops
    have h := applySinkOps_headerCount fieldnames ops [CsvRow.header fieldnames]
    simpa [CSVWriter.init_file, headerCount, isHeader] using h

/-! ### Crawl lemmas -/

/-- Over a progressive listing, every page the walk visits is at least the
starting page. -/
theorem get_links_visited_le (env : Nat → PageOutcome)
    (hprog : Progressive env) :
    ∀ fuel page acc q,
      q ∈ (ZipRecruiterScraper.get_links env fuel page acc).visited →
      page ≤ q := by
  intro fuel
  induction fuel with
  | zero =>
      intro page acc q hq
      simp [ZipRecruiterScraper.get_links] at hq
  | succ n ih =>
      intro page acc q hq
      cases h : env page with
      | fetchFail =>
          simp [ZipRecruiterScraper.get_links, h] at hq
          omega
      | parseFail =>
          simp [ZipRecruiterScraper.get_links, h] at hq
          omega
      | badNext links =>
          simp [ZipRecruiterScraper.get_links, h] at hq
          omega
      | parsed links nxt =>
          cases nxt with
          | none =>
              simp [ZipRecruiterScraper.get_links, h] at hq
              omega
          | some nx =>
              simp [ZipRecruiterScraper.get_links, h] at hq
              rcases hq with hq | hq
              · omega
              · have h1 := ih nx (acc ++ links) q hq
                have h2 := hprog page links nx h
                omega

/-- Over a progressive listing, the visited page numbers are strictly
increasing along the walk. -/
theorem get_links_visited_sorted (env : Nat → PageOutcome)
    (hprog : Progressive env) :
    ∀ fuel page acc,
      List.Pairwise (fun a b => a < b)
        (ZipRecruiterScraper.get_links env fuel page acc).visited := by
  intro fuel
  induction fuel with
  | zero =>
      intro page acc
      simp [ZipRecruiterScraper.get_links]
  | succ n ih =>
      intro page acc
      cases h : env page with
      | fetchFail => simp [ZipRecruiterScraper.get_links, h]
      | parseFail => simp [ZipRecruiterScraper.get_links, h]
      | badNext links => simp [ZipRecruiterScraper.get_links, h]
      | parsed links nxt =>
          cases nxt with
          | none => simp [ZipRecruiterScraper.get_links, h]
          | some nx =>
              have hcons :
                  (ZipRecruiterScraper.get_links env (n + 1) page acc).visited
                    = page :: (ZipRecruiterScraper.get_links env n nx
                        (acc ++ links)).visited := by
                simp [ZipRecruiterScraper.get_links, h]
              rw [hcons, List.pairwise_cons]
              refine ⟨?_, ih nx (acc ++ links)⟩
              intro q hq
              have h1 := get_links_visited_le env hprog n nx (acc ++ links) q hq
              have h2 := hprog page links nx h
              omega

/-- C3 (amended): the pagination walk terminates as soon as a listing page
yields no next-page number, and whenever every next-page number a page
yields exceeds that page's own number the visited pages are strictly
increasing and no page is visited twice; the source itself never checks the
next-page number, so a listing whose next-page number does not increase
makes the walk revisit pages. -/
theorem C3_theorem (env : Nat → PageOutcome) (hprog : Progressive env) :
    (∀ page links acc fuel, env page = PageOutcome.parsed links none →
      ZipRecruiterScraper.get_links env (fuel + 1) page acc
        = ⟨[page], acc ++ links, CrawlResult.done⟩)
    ∧ (∀ fuel page acc,
        List.Pairwise (fun a b => a < b)
          (ZipRecruiterScraper.get_links env fuel page acc).visited)
    ∧ (∀ fuel page acc,
        (ZipRecruiterScraper.get_links env fuel page acc).visited.Nodup) := by
  refine ⟨?_, get_links_visited_sorted env hprog, ?_⟩
  · intro page links acc fuel h
    simp [ZipRecruiterScraper.get_links, h]
  · intro fuel page acc
    have h := get_links_visited_sorted env hprog fuel page acc
    exact h.imp (fun hab => Nat.ne_of_lt hab)

/-- Witness for C3: a listing whose pages chain 1, 2, 3 and then stop is
progressive, and the walk visits strictly increasing pages without
repetition. -/
theorem C3_witness :
    List.Pairwise (fun a b => a < b)
      (ZipRecruiterScraper.get_links env3w 10 1 []).visited
    ∧ (ZipRecruiterScraper.get_links env3w 10 1 []).visited.Nodup := by
  have hprog : Progressive env3w := by
    intro p links q hq
    unfold env3w at hq
    split at hq
    · cases hq
      omega
    · cases hq
  exact ⟨(C3_theorem env3w hprog).2.1 10 1 [],
    (C3_theorem env3w hprog).2.2 10 1 []⟩

/-- Counterexample for C3: when page 1 names page 1 as its own next page,
the walk visits page 1 twice (and keeps revisiting it until the model's
fuel runs out), so the visited sequence is neither strictly increasing nor
repetition-free. -/
theorem C3_counterexample :
    (ZipRecruiterScraper.get_links env3c 2 1 []).visited = [1, 1]
    ∧ ¬ (ZipRecruiterScraper.get_links env3c 2 1 []).visited.Nodup := by
  exact ⟨rfl, by decide⟩

/-- C6 (amended): the crawl appends without deduplication: after any walk,
self.job_links equals its previous contents followed by the concatenation,
in visit order, of every visited page's extracted links, so a link that
appears on more than one listing page appears more than once. -/
theorem C6_theorem (env : Nat → PageOutcome) :
    ∀ fuel page acc,
      (ZipRecruiterScraper.get_links env fuel page acc).links
        = acc ++ (((ZipRecruiterScraper.get_links env fuel page acc).visited.map
            (fun p => pageLinks (env p))).flatten) := by
  intro fuel
  induction fuel with
  | zero =>
      intro page acc
      simp [ZipRecruiterScraper.get_links]
  | succ n ih =>
      intro page acc
      cases h : env page with
      | fetchFail => simp [ZipRecruiterScraper.get_links, h, pageLinks]
      | parseFail => simp [ZipRecruiterScraper.get_links, h, pageLinks]
      | badNext links => simp [ZipRecruiterScraper.get_links, h, pageLinks]
      | parsed links nxt =>
          cases nxt with
          | none => simp [ZipRecruiterScraper.get_links, h, pageLinks]
          | some nx =>
              have hrec := ih nx (acc ++ links)
              simp [ZipRecruiterScraper.get_links, h, pageLinks, hrec,
                List.append_assoc]

/-- Counterexample for C6: two listing pages both carrying link A give a
LinkSet holding A twice. -/
theorem C6_counterexample :
    (ZipRecruiterScraper.get_links env6 3 1 []).links = ["A", "A"]
    ∧ ¬ (ZipRecruiterScraper.get_links env6 3 1 []).links.Nodup := by
  exact ⟨rfl, by decide⟩

/-- C10: when the listing-page fetch raises before the local `response` was
assigned, the crawl's own exception handler evaluates the unbound
`response`, so get_links raises an unbound-variable error instead of
returning normally, and load_links propagates that error rather than
cleanly returning the truncated link set. -/
theorem C10_theorem (env : Nat → PageOutcome) (fuel : Nat)
    (jl : List String) (h : env 1 = PageOutcome.fetchFail) :
    ZipRecruiterScraper.get_links env (fuel + 1) 1 jl
      = ⟨[1], jl, CrawlResult.raisedNameError⟩
    ∧ (ZipRecruiterScraper.load_links env (fuel + 1) jl).1
      = Except.error CrawlErr.nameError := by
  have h1 : ZipRecruiterScraper.get_links env (fuel + 1) 1 jl
      = ⟨[1], jl, CrawlResult.raisedNameError⟩ := by
    simp [ZipRecruiterScraper.get_links, h]
  refine ⟨h1, ?_⟩
  simp [ZipRecruiterScraper.load_links, h1]

/-- Witness for C10: with every fetch strategy failing on page 1, the walk
ends in the handler's unbound-variable error and load_links propagates
it. -/
theorem C10_witness :
    ZipRecruiterScraper.get_links env10 1 1 []
      = ⟨[1], [], CrawlResult.raisedNameError⟩
    ∧ (ZipRecruiterScraper.load_links env10 1 []).1
      = Except.error CrawlErr.nameError :=
  C10_theorem env10 0 [] rfl

/-! ### Detail pipeline and run theorems -/

/-- C8: for every detail page whose structured-data block parses
successfully, the produced JobRecord has empty-string values in the job
identifier, specialty, industry and salary fields (with the estimated-salary
flag at its false sentinel), while the title and company come from the
parsed page data, the post URL is the fetched URL, and the scrape timestamp
is the formatted scrape time. -/
theorem C8_theorem (url now : String) (d : JobData) :
    ZipRecruiterScraper.get_details (DetailFetch.fetched (some d)) url now
      = Except.ok (some (mkJobRecord url d now))
    ∧ (mkJobRecord url d now).JobID = ""
    ∧ (mkJobRecord url d now).Speciality = ""
    ∧ (mkJobRecord url d now).Industry = ""
    ∧ (mkJobRecord url d now).SalaryFrom = ""
    ∧ (mkJobRecord url d now).SalaryUpto = ""
    ∧ (mkJobRecord url d now).PayoutTerm = ""
    ∧ (mkJobRecord url d now).IsEstimatedSalary = false
    ∧ (mkJobRecord url d now).Title = d.title
    ∧ (mkJobRecord url d now).Company = d.hiringOrganizationName
    ∧ (mkJobRecord url d now).PostUrl = url
    ∧ (mkJobRecord url d now).ScrapedOn = now :=
  ⟨rfl, rfl, rfl, rfl, rfl, rfl, rfl, rfl, rfl, rfl, rfl, rfl⟩

/-- C2: a detail link whose fetch fails all strategies makes get_details
raise (the fetch sits outside its try block), the exception escapes
process_link unhandled, and the awaited batch stops with that exception
after zero appends instead of dropping only the failed link: a LinkSet of
two links with one fetch failure yields no successful append rather than
the one the claim requires. -/
theorem C2_code_bug :
    ZipRecruiterScraper.get_details DetailFetch.fetchFail "L1" "t"
      = Except.error "All fetch methods failed"
    ∧ ZipRecruiterScraper.process_link DetailFetch.fetchFail sinkC5 "L1" "t"
      = Except.error "All fetch methods failed"
    ∧ ZipRecruiterScraper.gather detailC2 sinkC5 "t" ["L1", "L2"]
      = ([], some "All fetch methods failed") :=
  ⟨rfl, rfl, rfl⟩

/-- C5: job_links is created once per scraper and never cleared between
queries, so the batch processed for the second query contains the link
discovered during the first query's crawl even though no page of the second
query's crawl carries it. -/
theorem C5_code_bug :
    (ZipRecruiterScraper.run pagesC5 detailC5 sinkC5 2 "t"
        ["aws", "python"] []).processed
      = [("aws", ["A"]), ("python", ["A", "B"])]
    ∧ "A" ∉ pageLinks (pagesC5 "python" 1) := by
  exact ⟨rfl, by decide⟩

/-- Every query contributes exactly one outcome to the run summary: the run
loop handles each query to completion, catching its failures, and moves
on. -/
theorem run_outcomes_length (pagesOf : String → Nat → PageOutcome)
    (detail : String → DetailFetch) (sink : JobRecord → Option String)
    (fuel : Nat) (now : String) :
    ∀ (queries : List String) (jl : List String),
      (ZipRecruiterScraper.run pagesOf detail sink fuel now
          queries jl).outcomes.length
        = queries.length := by
  intro queries
  induction queries with
  | nil => intro jl; rfl
  | cons q qs ih =>
      intro jl
      simp [ZipRecruiterScraper.run, ih]

/-- C7 (amended): the run always completes, resolving every query to
exactly one logged outcome whatever the network, pages and sink do (every
exception inside a query's processing is caught by the per-query handler);
however a CSV write failure is not logged per record: save_row's exception
propagates uncaught out of process_link, so it reaches the per-query
handler rather than being handled next to the failing record. -/
theorem C7_theorem :
    (∀ (pagesOf : String → Nat → PageOutcome)
        (detail : String → DetailFetch) (sink : JobRecord → Option String)
        (fuel : Nat) (now : String) (queries jl : List String),
      (ZipRecruiterScraper.run pagesOf detail sink fuel now
          queries jl).outcomes.length
        = queries.length)
    ∧ (∀ (d : JobData) (url now e : String),
      ZipRecruiterScraper.process_link (DetailFetch.fetched (some d))
          (fun _ => some e) url now
        = Except.error e) :=
  ⟨fun pagesOf detail sink fuel now queries jl =>
      run_outcomes_length pagesOf detail sink fuel now queries jl,
    fun _ _ _ _ => rfl⟩

/-- Counterexample for C7: a write failure on the first record's append is
not logged per record: it escapes process_link as an exception, and the
awaited batch then stops with it, so the second, healthy record is not
appended within that await. -/
theorem C7_counterexample :
    ZipRecruiterScraper.process_link (DetailFetch.fetched (some jdSample))
        (fun _ => some "disk full") "u1" "t"
      = Except.error "disk full"
    ∧ ZipRecruiterScraper.gather (fun _ => DetailFetch.fetched (some jdSample))
        (fun _ => some "disk full") "t" ["u1", "u2"]
      = ([], some "disk full") :=
  ⟨rfl, rfl⟩
